import Mathlib

/-!
# Verification of the libgitops serializer core

A shallow embedding of the `pkg/serializer` package of
`isabella232/libgitops`: the identifier resolver (`gvkForObject`,
`externalGVKForObject`), the encoder (`encoder.Encode`,
`encoder.EncodeForGroupVersion`), the serializer's `DefaultInternal`, and
the CRD convertor (`convertor.Convert`, `convertor.ConvertToVersion`,
`convertToHub`, `findHubType`).

The Kubernetes apimachinery collaborators (the `runtime.Scheme` registry,
the codec factory, the text-format parsers and printers) are external to
the repository; they are modelled as a record of operations (`Scheme`)
matching the collaborator contracts the code calls into.  Go functions
that mutate an `out` argument are modelled as functions returning the
updated value; Go's `error` results become `Except`/`Option` values.
-/

namespace LibGitOps

/-- `schema.GroupVersion`: a group/version pair. -/
structure GroupVersion where
  group : String
  version : String
deriving DecidableEq, Repr

/-- `schema.GroupVersionKind`: a group/version/kind triple. -/
structure GVK where
  group : String
  version : String
  kind : String
deriving DecidableEq, Repr

/-- `runtime.APIVersionInternal`: the reserved version marking internal
(version-agnostic) objects. -/
def APIVersionInternal : String := "__internal"

/-- `schema.GroupVersionKind.Empty()`: all three fields empty. -/
def GVK.isEmpty (g : GVK) : Bool :=
  g.group == "" && g.version == "" && g.kind == ""

/-- `schema.GroupVersionKind.GroupVersion()`. -/
def GVK.groupVersion (g : GVK) : GroupVersion :=
  ⟨g.group, g.version⟩

/-- `schema.GroupKind.String()`: `kind` when the group is empty, else
`kind ++ "." ++ group`.  `findHubType` compares group-kinds through this
rendering. -/
def GVK.groupKindString (g : GVK) : String :=
  if g.group == "" then g.kind else g.kind ++ "." ++ g.group

/-- The empty (zero-value) `schema.GroupVersionKind`. -/
def emptyGVK : GVK := ⟨"", "", ""⟩

/-- `CRDConversionErrorCause`: the cause subtype carried by a
`CRDConversionError` (the error type itself lives in a file of the
repository that is not among the staged sources; its shape — a cause
subtype plus the offending identifier when available — is taken from the
call sites and the spec's error taxonomy). -/
inductive CRDCause where
  | invalidArgs
  | convertTo
  | convertFrom
  | schemeSetup
deriving DecidableEq, Repr

/-- The Go `error` values produced by the serializer package.

* `notInternal` — the sentinel `ErrObjectNotInternal`.
* `unsupportedContentType` — the sentinel `ErrUnsupportedContentType`.
* `crd gvk cause msg` — a `CRDConversionError` carrying an optional
  offending identifier, a cause subtype, and an optional wrapped error
  message (`NewCRDConversionError(gvk, cause, err)`).
* `invalidGVKs unversioned objKindsErr gvks` — the single
  `fmt.Errorf("unversioned %t or err %v or invalid gvks %v", ...)` of
  `gvkForObject`, covering the unversioned, registry-error, zero-match
  and multi-match cases alike.
* `noVersionsForGroup g` — the `fmt.Errorf` of `externalGVKForObject`
  when the group has no prioritized versions.
* `other msg` — an error bubbled up from an external collaborator
  (`scheme.New`, `scheme.Convert`, a user `ConvertTo`, ...). -/
inductive GoError where
  | notInternal
  | unsupportedContentType
  | crd (gvk : Option GVK) (cause : CRDCause) (msg : Option String)
  | invalidGVKs (unversioned : Bool) (objKindsErr : Option String) (gvks : List GVK)
  | noVersionsForGroup (group : String)
  | other (msg : String)
deriving DecidableEq, Repr

/-- The kind of a Go error as seen programmatically (`errors.Is`,
`errors.As`, type switches): sentinel errors are distinguished by
identity, a `*CRDConversionError` by its type and `Cause` field, while
every plain `fmt.Errorf` error is the same dynamic type
(`*errors.errorString`) and can be told apart only by its message text. -/
def GoError.progKind : GoError → Nat
  | .notInternal => 0
  | .unsupportedContentType => 1
  | .crd _ .invalidArgs _ => 2
  | .crd _ .convertTo _ => 3
  | .crd _ .convertFrom _ => 4
  | .crd _ .schemeSetup _ => 5
  | .invalidGVKs _ _ _ => 6
  | .noVersionsForGroup _ => 6
  | .other _ => 6

/-- The collaborator operations the serializer core calls, over an object
universe `α` (`runtime.Object` values).  Fields marked "object" model
interface methods of the object itself; the rest model the
`runtime.Scheme` registry, the controller-runtime capability checks and
the codec machinery, per the collaborator contracts.

Mutating Go methods (`Convert(in, out)`, `in.ConvertTo(out)`, ...) are
modelled as functions returning the updated `out` value. -/
structure Scheme (α : Type) where
  /-- object: `obj.GetObjectKind().GroupVersionKind()`. -/
  getGVK : α → GVK
  /-- object: `obj.GetObjectKind().SetGroupVersionKind(gvk)`. -/
  setGVK : α → GVK → α
  /-- `scheme.ObjectKinds(obj)`: on success, the matching identifiers and
  the unversioned flag; on failure (type not registered) the error, with
  nil identifiers and a false flag, as apimachinery returns them. -/
  objectKinds : α → Except String (List GVK × Bool)
  /-- `scheme.PrioritizedVersionsForGroup(group)`. -/
  prioritizedVersionsForGroup : String → List GroupVersion
  /-- `scheme.New(gvk)`: a blank object for the identifier. -/
  newForGVK : GVK → Except String α
  /-- `scheme.Convert(in, out, context)`: generic registered conversion,
  returning the updated `out`. -/
  schemeConvert : α → α → Except String α
  /-- `scheme.Default(obj)`: apply registered defaulting, returning the
  updated object. -/
  schemeDefault : α → α
  /-- `scheme.ConvertToVersion(in, runtime.InternalGroupVersioner)`. -/
  convertToInternal : α → Except String α
  /-- object: whether the object implements
  `conversion.Convertible` (a property of its Go type). -/
  isConvertible : α → Bool
  /-- object: whether the object implements `conversion.Hub`. -/
  isHub : α → Bool
  /-- object: `in.ConvertTo(out)` (user conversion to the hub),
  returning the updated `out`. -/
  userConvertTo : α → α → Except String α
  /-- object: `out.ConvertFrom(in)` (user conversion from the hub),
  returning the updated `out`. -/
  userConvertFrom : α → α → Except String α
  /-- `scheme.AllKnownTypes()`: the registered identifiers.  Go iterates
  a map in unspecified order; the model fixes one iteration order as the
  list order. -/
  allKnownTypes : List GVK

/-- `gvkForObject(scheme, obj)`: use a non-empty TypeMeta identifier as
is; otherwise ask the registry, succeeding only when the lookup is
error-free, not unversioned, and yields exactly one identifier. -/
def gvkForObject {α : Type} (s : Scheme α) (obj : α) : Except GoError GVK :=
  let gvk := s.getGVK obj
  if gvk.isEmpty then
    match s.objectKinds obj with
    | .error e => .error (.invalidGVKs false (some e) [])
    | .ok ([g], false) => .ok g
    | .ok (gvks, unversioned) => .error (.invalidGVKs unversioned none gvks)
  else
    .ok gvk

/-- `externalGVKForObject(scheme, obj)`: the preferred external
identifier for an internal object — fail with `ErrObjectNotInternal`
when the resolved version is not the internal marker, fail when the
group has no prioritized versions, else substitute the first prioritized
version. -/
def externalGVKForObject {α : Type} (s : Scheme α) (obj : α) : Except GoError GVK := do
  let gvk ← gvkForObject s obj
  if gvk.version ≠ APIVersionInternal then
    .error .notInternal
  else
    match s.prioritizedVersionsForGroup gvk.group with
    | [] => .error (.noVersionsForGroup gvk.group)
    | gv :: _ => .ok { gvk with version := gv.version }

/-! ## Encoder (`encode.go`) -/

/-- `EncodingOptions` after option building: `*opts.Pretty`
(`defaultEncodeOpts` sets it to true). -/
structure EncodingOptions where
  pretty : Bool
deriving DecidableEq, Repr

/-- One framed document as written by the version-specialized serializer:
the group/version the output is tagged with, the stream's content type,
whether the pretty printer was used, and the serialized object. -/
structure Doc (α : Type) where
  gv : GroupVersion
  contentType : String
  pretty : Bool
  payload : α
deriving DecidableEq, Repr

/-- The `FrameWriter` collaborator: a content-type-tagged sink of framed
documents.  `docs` is the sequence written so far. -/
structure FrameWriter (α : Type) where
  contentType : String
  docs : List (Doc α)
deriving DecidableEq, Repr

/-- The `encoder` struct: the scheme, the codec catalog
(`codecs.SupportedMediaTypes()` and the version-specialized
`codecs.EncoderForVersion(...).Encode`, the latter modelled as the
external codec operation producing the serialized object), and the
options. -/
structure Encoder (α : Type) where
  scheme : Scheme α
  supportedMediaTypes : List String
  encodeVersioned : α → GroupVersion → Except String α
  opts : EncodingOptions

/-- `encoder.EncodeForGroupVersion(fw, obj, gv)`: fail with
`ErrUnsupportedContentType` when the codec catalog has no entry for the
writer's content type; otherwise pick the pretty or compact serializer
per options, specialize it to `gv` and write one framed document. -/
def EncodeForGroupVersion {α : Type} (e : Encoder α) (fw : FrameWriter α)
    (obj : α) (gv : GroupVersion) : FrameWriter α × Option GoError :=
  if fw.contentType ∈ e.supportedMediaTypes then
    match e.encodeVersioned obj gv with
    | .error m => (fw, some (.other m))
    | .ok ser =>
        ({ fw with docs := fw.docs ++ [⟨gv, fw.contentType, e.opts.pretty, ser⟩] }, none)
  else
    (fw, some .unsupportedContentType)

/-- The body of `encoder.Encode`'s loop for one object: resolve the
identifier, promote an internal version to the preferred external one,
and serialize for that group/version. -/
def encodeOne {α : Type} (e : Encoder α) (fw : FrameWriter α) (obj : α) :
    FrameWriter α × Option GoError :=
  match gvkForObject e.scheme obj with
  | .error err => (fw, some err)
  | .ok gvk0 =>
      match (if gvk0.version = APIVersionInternal then
               externalGVKForObject e.scheme obj
             else .ok gvk0) with
      | .error err => (fw, some err)
      | .ok gvk => EncodeForGroupVersion e fw obj gvk.groupVersion

/-- `encoder.Encode(fw, objs...)`: encode the objects in order, stopping
at and returning the first error; the writer's document sequence records
what was written. -/
def Encode {α : Type} (e : Encoder α) (fw : FrameWriter α) :
    List α → FrameWriter α × Option GoError
  | [] => (fw, none)
  | obj :: rest =>
      match encodeOne e fw obj with
      | (fw', none) => Encode e fw' rest
      | (fw', some err) => (fw', some err)

/-! ## `serializer.DefaultInternal` -/

/-- `serializer.DefaultInternal(cfg)`: resolve the preferred external
identifier, instantiate a blank external object, convert `cfg` out to
it, default it, and convert back into `cfg`.  Returns the final value of
`cfg` together with the returned error.

Faithful to the source, the `scheme.New` failure branch executes
`return nil` (not `return err`): the call reports success and leaves
`cfg` untouched. -/
def DefaultInternal {α : Type} (s : Scheme α) (cfg : α) : α × Option GoError :=
  match externalGVKForObject s cfg with
  | .error err => (cfg, some err)
  | .ok gvk =>
      match s.newForGVK gvk with
      | .error _ => (cfg, none)
      | .ok ext =>
          match s.schemeConvert cfg ext with
          | .error m => (cfg, some (.other m))
          | .ok ext1 =>
              match s.schemeConvert (s.schemeDefault ext1) cfg with
              | .error m => (cfg, some (.other m))
              | .ok cfg' => (cfg', none)

/-- Follows the spec's words (§4.5/§8 defaulting composition), for
comparison with `DefaultInternal`: convert the internal object to a
blank object of its preferred external version, apply that version's
defaulting rules, then convert the defaulted external object back into
the internal one. -/
def defaultViaPreferredExternal {α : Type} (s : Scheme α) (cfg ext : α) :
    Except String α := do
  let ext1 ← s.schemeConvert cfg ext
  s.schemeConvert (s.schemeDefault ext1) cfg

/-! ## Convertor (CRD conversion) -/

/-- Instantiate every identifier of a list in order (`scheme.New` inside
the collaborator's version loop); the first instantiation failure aborts
the check. -/
def instantiateVersions {α : Type} (s : Scheme α) :
    List GVK → Except String (List α)
  | [] => .ok []
  | g :: rest =>
      match s.newForGVK g with
      | .error e => .error ("failed to instantiate object with GVK: " ++ e)
      | .ok o =>
          match instantiateVersions s rest with
          | .error e => .error e
          | .ok os => .ok (o :: os)

/-- Modelled from the spec: `webhookconversion.IsConvertible` of the
controller-runtime dependency, the external collaborator
`validateConvertible` calls (its source is not part of this repository).
Per §4.3, validation requires the object's kind to have exactly one
discoverable Hub among the registered versions: the registered versions
of the object's group-kind are instantiated and classified into
Hub-capable objects, spokes (Convertibles) and non-spokes; the check
accepts exactly when there is one Hub and every non-Hub version is a
spoke, rejects without an error when the kind has no conversion
implementation at all (no Hub and no spoke, as for multi-version
built-in types), and otherwise rejects with a partial-implementation
error — in particular when two or more Hub-capable versions are
registered. -/
def webhookIsConvertible {α : Type} (s : Scheme α) (obj : α) :
    Bool × Option String :=
  match s.objectKinds obj with
  | .error e => (false, some e)
  | .ok ([], _) => (false, some "error retrieving gvks for object")
  | .ok (gvk :: _, _) =>
      match instantiateVersions s (s.allKnownTypes.filter
          (fun g => g.group == gvk.group && g.kind == gvk.kind)) with
      | .error e => (false, some e)
      | .ok objs =>
          let hubs := objs.filter s.isHub
          let spokes := objs.filter (fun o => !s.isHub o && s.isConvertible o)
          let nonSpokes := objs.filter (fun o => !s.isHub o && !s.isConvertible o)
          if hubs.length = 0 ∧ spokes.length = 0 then (false, none)
          else if hubs.length = 1 ∧ nonSpokes.length = 0 then (true, none)
          else (false, some "PartialImplementationError")

/-- `validateConvertible(in, scheme)`: resolve the object's identifier,
then require `webhookconversion.IsConvertible` to hold; a check error or
a false check yields a `CRDConversionError` with cause `SchemeSetup`. -/
def validateConvertible {α : Type} (s : Scheme α) (inp : α) :
    Except GoError GVK :=
  match gvkForObject s inp with
  | .error err => .error err
  | .ok gvk =>
      match webhookIsConvertible s inp with
      | (_, some e) => .error (.crd (some gvk) .schemeSetup (some e))
      | (false, none) => .error (.crd (some gvk) .schemeSetup none)
      | (true, none) => .ok gvk

/-- `populateGVK(obj, scheme)`: stamp the object's TypeMeta with its
resolved identifier. -/
def populateGVK {α : Type} (s : Scheme α) (obj : α) : Except GoError α :=
  match gvkForObject s obj with
  | .error err => .error err
  | .ok gvk => .ok (s.setGVK obj gvk)

/-- `convertor.convertIntoHub(in, out)`: validate the convertible,
invoke the type's own `ConvertTo` (a failure is tagged `ConvertTo`), and
populate the hub's TypeMeta. -/
def convertIntoHub {α : Type} (s : Scheme α) (inp out : α) :
    Except GoError α :=
  match validateConvertible s inp with
  | .error err => .error err
  | .ok inGVK =>
      match s.userConvertTo inp out with
      | .error m => .error (.crd (some inGVK) .convertTo (some m))
      | .ok out' => populateGVK s out'

/-- `convertor.convertFromHub(in, out)`: validate the convertible `out`,
invoke the type's own `ConvertFrom` (a failure is tagged `ConvertFrom`),
and populate the convertible's TypeMeta. -/
def convertFromHub {α : Type} (s : Scheme α) (inp out : α) :
    Except GoError α :=
  match validateConvertible s out with
  | .error err => .error err
  | .ok outGVK =>
      match s.userConvertFrom inp out with
      | .error m => .error (.crd (some outGVK) .convertFrom (some m))
      | .ok out' => populateGVK s out'

/-- `convertor.Convert(in, out, context)`: a Convertible `in` requires a
Hub `out` (else `InvalidArgs`) and goes through `convertIntoHub`; else a
Convertible `out` requires a Hub `in` (else `InvalidArgs`) and goes
through `convertFromHub`; else the generic registered conversion of the
scheme is used. -/
def Convert {α : Type} (s : Scheme α) (inp out : α) : Except GoError α :=
  if s.isConvertible inp then
    if s.isHub out then convertIntoHub s inp out
    else .error (.crd none .invalidArgs (some "if in object is Convertible, out must be Hub"))
  else if s.isConvertible out then
    if s.isHub inp then convertFromHub s inp out
    else .error (.crd none .invalidArgs (some "if out object is Convertible, in must be Hub"))
  else
    match s.schemeConvert inp out with
    | .error m => .error (.other m)
    | .ok out' => .ok out'

/-- The loop body of `findHubType`, over the remaining iteration order
of `scheme.AllKnownTypes()`: skip other group-kinds, skip the
convertible's own version, skip identifiers the scheme cannot
instantiate, skip non-Hub objects, and return the first Hub found. -/
def findHubScan {α : Type} (s : Scheme α) (currentGVK : GVK) :
    List GVK → Except String (α × GVK)
  | [] => .error "no matching Hub target type for convertible"
  | gvk :: rest =>
      if gvk.groupKindString ≠ currentGVK.groupKindString then
        findHubScan s currentGVK rest
      else if gvk.version = currentGVK.version then
        findHubScan s currentGVK rest
      else
        match s.newForGVK gvk with
        | .error _ => findHubScan s currentGVK rest
        | .ok obj =>
            if s.isHub obj then .ok (obj, gvk)
            else findHubScan s currentGVK rest

/-- `findHubType(currentGVK, scheme)`: scan all registered identifiers
for a Hub sibling of the kind. -/
def findHubType {α : Type} (s : Scheme α) (currentGVK : GVK) :
    Except String (α × GVK) :=
  findHubScan s currentGVK s.allKnownTypes

/-- `convertor.convertToHub(in)`: validate the convertible, find the Hub
sibling (a failure is tagged `SchemeSetup` and carries the zero-valued
target identifier), invoke `ConvertTo` (a failure is tagged
`ConvertTo`), and stamp the hub with the target identifier. -/
def convertToHub {α : Type} (s : Scheme α) (inp : α) : Except GoError α :=
  match validateConvertible s inp with
  | .error err => .error err
  | .ok currentGVK =>
      match findHubType s currentGVK with
      | .error m => .error (.crd (some emptyGVK) .schemeSetup (some m))
      | .ok (hub, targetGVK) =>
          match s.userConvertTo inp hub with
          | .error m => .error (.crd (some targetGVK) .convertTo (some m))
          | .ok hub' => .ok (s.setGVK hub' targetGVK)

/-- `convertor.ConvertToVersion(in, _)`: when the convert-to-hub option
is off, return `in.DeepCopyObject()` (a deep copy is structurally equal
to the receiver; values are immutable in the embedding, so it is the
value itself); otherwise convert a Convertible to its Hub, or anything
else to the internal version via the scheme. -/
def ConvertToVersion {α : Type} (s : Scheme α) (doConvertToHub : Bool)
    (inp : α) (_target : GroupVersion) : Except GoError α :=
  if !doConvertToHub then
    .ok inp
  else if s.isConvertible inp then
    convertToHub s inp
  else
    match s.convertToInternal inp with
    | .error m => .error (.other m)
    | .ok out => .ok out

/-! ## The test fixture scheme (`serializer_test.go`)

The registered types of the test scheme: `runtimetest.InternalSimple`,
`runtimetest.ExternalSimple`, `runtimetest.InternalComplex` and
`runtimetest.ExternalComplex`, with the internal kinds registered at
`foogroup/__internal`, the external Go types registered at both
`foogroup/v1alpha1` and `foogroup/v1alpha2`, version priority set to
`v1alpha1`, the generated conversions copying each field, and the
type-keyed defaulting function for `ExternalComplex` (ext2's
registration, being last, overwrites ext1's, so `Integer64` defaults to
5) — exactly as `serializer_test.go` sets the scheme up. -/

/-- The fixture objects, each carrying its TypeMeta identifier and its
fields.  `unregistered` is a concrete type the scheme knows nothing
about (zero registry matches). -/
inductive FixObj where
  | intSimple (tm : GVK) (testString : String)
  | extSimple (tm : GVK) (testString : String)
  | intComplex (tm : GVK) (str : String) (integer integer64 int64 : Int) (b : Bool)
  | extComplex (tm : GVK) (str : String) (integer integer64 int64 : Int) (b : Bool)
  | unregistered (tm : GVK)
deriving DecidableEq, Repr

/-- `foogroup/__internal/Simple`. -/
def intSimpleGVK : GVK := ⟨"foogroup", APIVersionInternal, "Simple"⟩

/-- `foogroup/__internal/Complex`. -/
def intComplexGVK : GVK := ⟨"foogroup", APIVersionInternal, "Complex"⟩

/-- `foogroup/v1alpha1/Simple` (the TypeMeta of `simpleMeta`). -/
def simpleMetaGVK : GVK := ⟨"foogroup", "v1alpha1", "Simple"⟩

/-- `foogroup/v1alpha1/Complex` (the TypeMeta of `complexMeta`). -/
def complexMetaGVK : GVK := ⟨"foogroup", "v1alpha1", "Complex"⟩

/-- The fixture's TypeMeta accessor. -/
def FixObj.tm : FixObj → GVK
  | .intSimple tm _ => tm
  | .extSimple tm _ => tm
  | .intComplex tm _ _ _ _ _ => tm
  | .extComplex tm _ _ _ _ _ => tm
  | .unregistered tm => tm

/-- The fixture's TypeMeta update. -/
def FixObj.setTm : FixObj → GVK → FixObj
  | .intSimple _ s, tm => .intSimple tm s
  | .extSimple _ s, tm => .extSimple tm s
  | .intComplex _ s i j k b, tm => .intComplex tm s i j k b
  | .extComplex _ s i j k b, tm => .extComplex tm s i j k b
  | .unregistered _, tm => .unregistered tm

/-- `scheme.ObjectKinds` for the fixture scheme: the internal types are
registered once at the internal version; the external Go types are
registered at both `v1alpha1` and `v1alpha2` (two matches); the
unregistered type errors. -/
def fixObjectKinds : FixObj → Except String (List GVK × Bool)
  | .intSimple _ _ => .ok ([intSimpleGVK], false)
  | .intComplex _ _ _ _ _ _ => .ok ([intComplexGVK], false)
  | .extSimple _ _ =>
      .ok ([⟨"foogroup", "v1alpha1", "Simple"⟩, ⟨"foogroup", "v1alpha2", "Simple"⟩], false)
  | .extComplex _ _ _ _ _ _ =>
      .ok ([⟨"foogroup", "v1alpha1", "Complex"⟩, ⟨"foogroup", "v1alpha2", "Complex"⟩], false)
  | .unregistered _ => .error "no kind is registered for the type"

/-- `scheme.New` for the fixture scheme: a blank object (empty TypeMeta,
zero fields) for each registered identifier. -/
def fixNew (gvk : GVK) : Except String FixObj :=
  if gvk = intSimpleGVK then .ok (.intSimple emptyGVK "")
  else if gvk = intComplexGVK then .ok (.intComplex emptyGVK "" 0 0 0 false)
  else if gvk = ⟨"foogroup", "v1alpha1", "Simple"⟩ ∨ gvk = ⟨"foogroup", "v1alpha2", "Simple"⟩ then
    .ok (.extSimple emptyGVK "")
  else if gvk = ⟨"foogroup", "v1alpha1", "Complex"⟩ ∨ gvk = ⟨"foogroup", "v1alpha2", "Complex"⟩ then
    .ok (.extComplex emptyGVK "" 0 0 0 false)
  else .error "kind not registered"

/-- `scheme.Convert` for the fixture scheme: the generated conversions
of `serializer_test.go` (`autoConvert*`), each copying the payload
fields into `out` and leaving `out`'s TypeMeta alone; unregistered pairs
fail. -/
def fixConvert : FixObj → FixObj → Except String FixObj
  | .intSimple _ s, .extSimple tm _ => .ok (.extSimple tm s)
  | .extSimple _ s, .intSimple tm _ => .ok (.intSimple tm s)
  | .intComplex _ s i j k b, .extComplex tm _ _ _ _ _ => .ok (.extComplex tm s i j k b)
  | .extComplex _ s i j k b, .intComplex tm _ _ _ _ _ => .ok (.intComplex tm s i j k b)
  | _, _ => .error "conversion not registered"

/-- `scheme.Default` for the fixture scheme: the type-keyed defaulting
function for `ExternalComplex` — `v2_SetDefaults_Complex` (registered
last, overwriting v1's): `Integer64` becomes 5 when it is 0.  All other
objects are left unchanged. -/
def fixDefault : FixObj → FixObj
  | .extComplex tm s i j k b => .extComplex tm s i (if j = 0 then 5 else j) k b
  | o => o

/-- The fixture `runtime.Scheme`.  Version priority is `v1alpha1` (set
by `SetVersionPriority(ext1gv)`), followed by the observed `v1alpha2`.
None of the fixture types implement `conversion.Convertible` or
`conversion.Hub`. -/
def fixScheme : Scheme FixObj where
  getGVK := FixObj.tm
  setGVK := FixObj.setTm
  objectKinds := fixObjectKinds
  prioritizedVersionsForGroup g :=
    if g = "foogroup" then [⟨"foogroup", "v1alpha1"⟩, ⟨"foogroup", "v1alpha2"⟩] else []
  newForGVK := fixNew
  schemeConvert := fixConvert
  schemeDefault := fixDefault
  convertToInternal o :=
    match o with
    | .extSimple _ s => .ok (.intSimple emptyGVK s)
    | .extComplex _ s i j k b => .ok (.intComplex emptyGVK s i j k b)
    | o => .ok o
  isConvertible _ := false
  isHub _ := false
  userConvertTo _ _ := .error "not a Convertible"
  userConvertFrom _ _ := .error "not a Convertible"
  allKnownTypes :=
    [intSimpleGVK, intComplexGVK,
     ⟨"foogroup", "v1alpha1", "Simple"⟩, ⟨"foogroup", "v1alpha2", "Simple"⟩,
     ⟨"foogroup", "v1alpha1", "Complex"⟩, ⟨"foogroup", "v1alpha2", "Complex"⟩]

/-- The version-specialized codec for the fixture
(`codecs.EncoderForVersion(encoder, gv).Encode`): convert the object to
the external type of the target group/version through the registered
conversions and tag it with the target identifier; an external object at
the target version is serialized as is (tagged).  Unregistered targets
fail. -/
def fixEncodeVersioned (obj : FixObj) (gv : GroupVersion) : Except String FixObj :=
  if gv.group = "foogroup" ∧ (gv.version = "v1alpha1" ∨ gv.version = "v1alpha2") then
    match obj with
    | .intSimple _ s => .ok (.extSimple ⟨gv.group, gv.version, "Simple"⟩ s)
    | .extSimple _ s => .ok (.extSimple ⟨gv.group, gv.version, "Simple"⟩ s)
    | .intComplex _ s i j k b => .ok (.extComplex ⟨gv.group, gv.version, "Complex"⟩ s i j k b)
    | .extComplex _ s i j k b => .ok (.extComplex ⟨gv.group, gv.version, "Complex"⟩ s i j k b)
    | .unregistered _ => .error "no kind is registered for the type"
  else .error "unknown target groupversion"

/-- The two reference content types
(`runtime.ContentTypeJSON`/`runtime.ContentTypeYAML`). -/
def contentTypeJSON : String := "application/json"

/-- See `contentTypeJSON`. -/
def contentTypeYAML : String := "application/yaml"

/-- The fixture encoder: both reference content types are registered in
the codec catalog. -/
def fixEncoder (pretty : Bool) : Encoder FixObj where
  scheme := fixScheme
  supportedMediaTypes := [contentTypeJSON, contentTypeYAML]
  encodeVersioned := fixEncodeVersioned
  opts := ⟨pretty⟩

/-- Modelled from the spec: the Decoder implementation (`decode.go`) is
not among the staged sources.  Per §4.5, `decodeInto(target)` reads one
document, deserializes it (the format parsers are external collaborators
per §1/§6, so deserializing a framed document yields its structured
object, TypeMeta included), and converts the decoded value into the
caller-supplied object regardless of version: copying into the same
external type, or converting down to the internal type through the
registered conversions (which leave the internal target's TypeMeta
empty, as the test fixtures expect). -/
def decodeIntoFix (doc : Doc FixObj) (target : FixObj) : Except String FixObj :=
  match doc.payload, target with
  | .extSimple tm s, .extSimple _ _ => .ok (.extSimple tm s)
  | .extSimple _ s, .intSimple tmT _ => .ok (.intSimple tmT s)
  | .extComplex tm s i j k b, .extComplex _ _ _ _ _ _ => .ok (.extComplex tm s i j k b)
  | .extComplex _ s i j k b, .intComplex tmT _ _ _ _ _ => .ok (.intComplex tmT s i j k b)
  | _, _ => .error "cannot convert document into target"

/-- The fixture scheme with a mis-set version priority: `v1alpha3` is
prioritized for `foogroup`, but no type is registered at that version,
so `scheme.New` fails for the preferred external identifier. -/
def fixSchemeV3Priority : Scheme FixObj :=
  { fixScheme with
    prioritizedVersionsForGroup := fun g =>
      if g = "foogroup" then [⟨"foogroup", "v1alpha3"⟩] else [] }

/-! ## Theorems -/

/-- C10: for every input object and target `GroupVersioner`, with the
convert-to-hub option disabled, `convertor.ConvertToVersion` returns
successfully with a deep copy of the input — a value equal to the input,
still at the input's version, the input itself untouched (values are
immutable in the embedding, and the returned value is the input's). -/
theorem convertToVersion_no_hub_returns_copy {α : Type} (s : Scheme α)
    (inp : α) (target : GroupVersion) :
    ConvertToVersion s false inp target = .ok inp := rfl

/-- C3: `externalGVKForObject` fails with `ErrObjectNotInternal` when
the resolved version is not the internal marker, fails with the
no-registered-version error when the group's prioritized-versions list
is empty, and otherwise returns the identifier with the version replaced
by the first prioritized version. -/
theorem externalGVKForObject_spec {α : Type} (s : Scheme α) (obj : α)
    (gvk : GVK) (h : gvkForObject s obj = .ok gvk) :
    (gvk.version ≠ APIVersionInternal →
        externalGVKForObject s obj = .error .notInternal) ∧
    (gvk.version = APIVersionInternal →
        s.prioritizedVersionsForGroup gvk.group = [] →
        externalGVKForObject s obj = .error (.noVersionsForGroup gvk.group)) ∧
    (∀ gv rest, gvk.version = APIVersionInternal →
        s.prioritizedVersionsForGroup gvk.group = gv :: rest →
        externalGVKForObject s obj = .ok { gvk with version := gv.version }) := by
  refine ⟨fun hv => ?_, fun hv hp => ?_, fun gv rest hv hp => ?_⟩
  · simp [externalGVKForObject, h, bind, Except.bind, hv]
  · simp [externalGVKForObject, h, bind, Except.bind, hv, hp]
  · simp [externalGVKForObject, h, bind, Except.bind, hv, hp]

/-- C3 witness: the internal `Simple` fixture object resolves to
`foogroup/v1alpha1/Simple`. -/
theorem externalGVKForObject_spec_witness :
    externalGVKForObject fixScheme (.intSimple emptyGVK "foo") =
      .ok ⟨"foogroup", "v1alpha1", "Simple"⟩ :=
  (externalGVKForObject_spec fixScheme (.intSimple emptyGVK "foo")
    intSimpleGVK rfl).2.2 ⟨"foogroup", "v1alpha1"⟩
    [⟨"foogroup", "v1alpha2"⟩] rfl rfl

/-- C6: when every step succeeds, `DefaultInternal` computes exactly the
composition written out by `defaultViaPreferredExternal`: convert the
internal object to a blank object of its preferred external version,
apply that version's defaulting rules, convert the defaulted external
object back into the internal one. -/
theorem defaultInternal_is_composition {α : Type} (s : Scheme α)
    (cfg ext cfg' : α) (gvk : GVK)
    (h1 : externalGVKForObject s cfg = .ok gvk)
    (h2 : s.newForGVK gvk = .ok ext)
    (h3 : defaultViaPreferredExternal s cfg ext = .ok cfg') :
    DefaultInternal s cfg = (cfg', none) := by
  cases hc : s.schemeConvert cfg ext with
  | error m =>
      exact absurd h3
        (by simp [defaultViaPreferredExternal, hc, bind, Except.bind])
  | ok ext1 =>
      cases hd : s.schemeConvert (s.schemeDefault ext1) cfg with
      | error m =>
          exact absurd h3
            (by simp [defaultViaPreferredExternal, hc, hd, bind, Except.bind])
      | ok c =>
          have hcc : c = cfg' := by
            have h3' := h3
            simp [defaultViaPreferredExternal, hc, hd, bind, Except.bind] at h3'
            exact h3'
          subst hcc
          simp [DefaultInternal, h1, h2, hc, hd]

/-- C6 witness: defaulting the internal `Complex` fixture object routes
through `v1alpha1`'s external form and sets `Integer64` to 5, matching
the test's "defaulted complex internal" expectation. -/
theorem defaultInternal_is_composition_witness :
    DefaultInternal fixScheme (.intComplex emptyGVK "bar" 0 0 0 false) =
      (.intComplex emptyGVK "bar" 0 5 0 false, none) :=
  defaultInternal_is_composition fixScheme
    (.intComplex emptyGVK "bar" 0 0 0 false)
    (.extComplex emptyGVK "" 0 0 0 false)
    (.intComplex emptyGVK "bar" 0 5 0 false)
    complexMetaGVK rfl rfl rfl

/-- C7 (the code is wrong here): under a scheme whose preferred external
version has no registered type, `scheme.New` fails, yet `DefaultInternal`
returns success (`nil`) and leaves the object undefaulted — the
`scheme.New` error branch executes `return nil` instead of `return err`,
swallowing the error the spec's propagation policy requires to be
returned. -/
theorem defaultInternal_swallows_new_error :
    (fixSchemeV3Priority.newForGVK ⟨"foogroup", "v1alpha3", "Complex"⟩ =
      .error "kind not registered") ∧
    DefaultInternal fixSchemeV3Priority (.intComplex emptyGVK "bar" 0 0 0 false) =
      (.intComplex emptyGVK "bar" 0 0 0 false, none) :=
  ⟨rfl, rfl⟩

/-- C9 counterexample: a concrete type with zero registry matches
(`unregistered`) and one with two non-unversioned matches (the external
`Simple` Go type, registered at both `v1alpha1` and `v1alpha2`) both
make `gvkForObject` fail — but with the same programmatic error kind (a
single plain `fmt.Errorf`), so the two failures are not distinguishable
as distinct `UnknownType`/`AmbiguousType` kinds, only by message text. -/
theorem gvkForObject_error_kinds_counterexample :
    gvkForObject fixScheme (.unregistered emptyGVK) =
      .error (.invalidGVKs false (some "no kind is registered for the type") []) ∧
    gvkForObject fixScheme (.extSimple emptyGVK "x") =
      .error (.invalidGVKs false none
        [⟨"foogroup", "v1alpha1", "Simple"⟩, ⟨"foogroup", "v1alpha2", "Simple"⟩]) ∧
    GoError.progKind
        (.invalidGVKs false (some "no kind is registered for the type") []) =
      GoError.progKind (.invalidGVKs false none
        [⟨"foogroup", "v1alpha1", "Simple"⟩, ⟨"foogroup", "v1alpha2", "Simple"⟩]) :=
  ⟨rfl, rfl, rfl⟩

/-- C9 as amended: on an object with no TypeMeta identifier, a registry
lookup error (zero matches) and a multi-match lookup both fail, and both
failures carry the same generic programmatic error kind (the one
`fmt.Errorf` of `gvkForObject`); the code defines no distinct
`UnknownType`/`AmbiguousType` kinds. -/
theorem gvkForObject_zero_or_multi_generic_error {α : Type} (s : Scheme α)
    (obj : α) (hempty : (s.getGVK obj).isEmpty = true) :
    (∀ e, s.objectKinds obj = .error e →
        gvkForObject s obj = .error (.invalidGVKs false (some e) []) ∧
        GoError.progKind (.invalidGVKs false (some e) []) = 6) ∧
    (∀ gvks, s.objectKinds obj = .ok (gvks, false) → gvks.length ≠ 1 →
        gvkForObject s obj = .error (.invalidGVKs false none gvks) ∧
        GoError.progKind (.invalidGVKs false none gvks) = 6) := by
  constructor
  · intro e he
    refine ⟨?_, rfl⟩
    simp [gvkForObject, hempty, he]
  · intro gvks hk hlen
    refine ⟨?_, rfl⟩
    simp only [gvkForObject, hempty, if_true]
    rw [hk]
    match gvks, hlen with
    | [], _ => rfl
    | [g], h => exact absurd rfl h
    | g₁ :: g₂ :: gs, _ => rfl

/-- C9 amended witness: the doubly-registered external `Simple` type
fails with the generic error kind. -/
theorem gvkForObject_zero_or_multi_generic_error_witness :
    gvkForObject fixScheme (.extSimple emptyGVK "x") =
      .error (.invalidGVKs false none
        [⟨"foogroup", "v1alpha1", "Simple"⟩, ⟨"foogroup", "v1alpha2", "Simple"⟩]) ∧
    GoError.progKind (.invalidGVKs false none
        [⟨"foogroup", "v1alpha1", "Simple"⟩, ⟨"foogroup", "v1alpha2", "Simple"⟩]) = 6 :=
  (gvkForObject_zero_or_multi_generic_error fixScheme
      (.extSimple emptyGVK "x") rfl).2
    [⟨"foogroup", "v1alpha1", "Simple"⟩, ⟨"foogroup", "v1alpha2", "Simple"⟩]
    rfl (by decide)

/-- C2: `encoder.Encode` on an object whose resolved identifier is
internal writes one document tagged with the first (highest-priority)
external version of the object's group; on an object already at an
external version it writes one document tagged with the object's own
group/version, with no version conversion step. -/
theorem encode_version_promotion {α : Type} (e : Encoder α)
    (fw : FrameWriter α) (obj : α) (gvk : GVK) (ser : α)
    (hct : fw.contentType ∈ e.supportedMediaTypes)
    (hgvk : gvkForObject e.scheme obj = .ok gvk) :
    (∀ gv rest, gvk.version = APIVersionInternal →
        e.scheme.prioritizedVersionsForGroup gvk.group = gv :: rest →
        e.encodeVersioned obj ⟨gvk.group, gv.version⟩ = .ok ser →
        Encode e fw [obj] =
          ({ fw with docs := fw.docs ++
              [⟨⟨gvk.group, gv.version⟩, fw.contentType, e.opts.pretty, ser⟩] },
            none)) ∧
    (gvk.version ≠ APIVersionInternal →
        e.encodeVersioned obj gvk.groupVersion = .ok ser →
        Encode e fw [obj] =
          ({ fw with docs := fw.docs ++
              [⟨gvk.groupVersion, fw.contentType, e.opts.pretty, ser⟩] },
            none)) := by
  constructor
  · intro gv rest hv hp hser
    simp [Encode, encodeOne, hgvk, hv, externalGVKForObject, bind, Except.bind,
      hp, EncodeForGroupVersion, hct, GVK.groupVersion, hser]
  · intro hv hser
    simp [Encode, encodeOne, hgvk, hv, EncodeForGroupVersion, hct, hser]

/-- C2 witness: the internal `Simple` fixture object is written tagged
`foogroup/v1alpha1`, the highest-priority external version. -/
theorem encode_version_promotion_witness :
    Encode (fixEncoder true) ⟨contentTypeYAML, []⟩ [.intSimple emptyGVK "foo"] =
      (⟨contentTypeYAML,
        [⟨⟨"foogroup", "v1alpha1"⟩, contentTypeYAML, true,
          .extSimple ⟨"foogroup", "v1alpha1", "Simple"⟩ "foo"⟩]⟩,
       none) :=
  (encode_version_promotion (fixEncoder true) ⟨contentTypeYAML, []⟩
      (.intSimple emptyGVK "foo") intSimpleGVK
      (.extSimple ⟨"foogroup", "v1alpha1", "Simple"⟩ "foo")
      (by simp [fixEncoder, contentTypeYAML, contentTypeJSON]) rfl).1
    ⟨"foogroup", "v1alpha1"⟩ [⟨"foogroup", "v1alpha2"⟩] rfl rfl rfl

/-- C8: `encoder.Encode` handles the objects in order and stops at the
first failing one: if every object of the prefix encodes cleanly, taking
the writer to `fw₁`, and the next object's step fails with `err`, the
whole call returns `err` with the writer exactly as the failing step
left it — the prefix written once, nothing of the suffix processed
(whatever follows the failing object cannot change the result). -/
theorem encode_first_error_stops {α : Type} (e : Encoder α)
    (fw fw₁ fw₂ : FrameWriter α) (objs₁ objs₂ : List α) (obj : α)
    (err : GoError)
    (h1 : Encode e fw objs₁ = (fw₁, none))
    (h2 : encodeOne e fw₁ obj = (fw₂, some err)) :
    Encode e fw (objs₁ ++ obj :: objs₂) = (fw₂, some err) := by
  induction objs₁ generalizing fw with
  | nil =>
      simp only [Encode] at h1
      cases h1
      simp [Encode, h2]
  | cons a l ih =>
      simp only [Encode, List.cons_append] at h1 ⊢
      cases hstep : encodeOne e fw a with
      | mk fw' oerr =>
          rw [hstep] at h1
          cases oerr with
          | none => exact ih fw' h1
          | some e' => simp at h1

/-- C8 witness: after one cleanly encoded `Simple`, an unregistered
object fails the whole call; a further `Simple` after it is never
encoded. -/
theorem encode_first_error_stops_witness :
    Encode (fixEncoder true) ⟨contentTypeYAML, []⟩
      [.intSimple emptyGVK "foo", .unregistered emptyGVK,
       .intSimple emptyGVK "bar"] =
      (⟨contentTypeYAML,
        [⟨⟨"foogroup", "v1alpha1"⟩, contentTypeYAML, true,
          .extSimple ⟨"foogroup", "v1alpha1", "Simple"⟩ "foo"⟩]⟩,
       some (.invalidGVKs false (some "no kind is registered for the type") [])) :=
  encode_first_error_stops (fixEncoder true) ⟨contentTypeYAML, []⟩
    ⟨contentTypeYAML,
      [⟨⟨"foogroup", "v1alpha1"⟩, contentTypeYAML, true,
        .extSimple ⟨"foogroup", "v1alpha1", "Simple"⟩ "foo"⟩]⟩
    ⟨contentTypeYAML,
      [⟨⟨"foogroup", "v1alpha1"⟩, contentTypeYAML, true,
        .extSimple ⟨"foogroup", "v1alpha1", "Simple"⟩ "foo"⟩]⟩
    [.intSimple emptyGVK "foo"] [.intSimple emptyGVK "bar"]
    (.unregistered emptyGVK)
    (.invalidGVKs false (some "no kind is registered for the type") [])
    rfl rfl

/-- `obj` round-trips through a content type: encoding it to a fresh
writer succeeds with exactly one framed document, and decoding that
document into a blank object of the same type yields a value equal
field-for-field to the original. -/
def roundtrips (ct : String) (pretty : Bool) (obj blank : FixObj) : Prop :=
  ∃ fw doc, Encode (fixEncoder pretty) ⟨ct, []⟩ [obj] = (fw, none) ∧
    fw.docs = [doc] ∧ decodeIntoFix doc blank = .ok obj

/-- Introduction form of `roundtrips` from the two computed facts. -/
theorem roundtrips_intro (ct : String) (pretty : Bool) (obj blank : FixObj)
    (doc : Doc FixObj)
    (h1 : Encode (fixEncoder pretty) ⟨ct, []⟩ [obj] = (⟨ct, [doc]⟩, none))
    (h2 : decodeIntoFix doc blank = .ok obj) :
    roundtrips ct pretty obj blank :=
  ⟨⟨ct, [doc]⟩, doc, h1, rfl, h2⟩

/-- C1: for both reference content types, in both pretty and compact
form, every fixture object of a registered type and version round-trips:
the internal `Simple` and `Complex` objects (any field values), and the
external ones at each registered external version (`v1alpha1` and
`v1alpha2`), decode back field-for-field from their encoding. -/
theorem roundtrip_fixture (ct : String) (pretty : Bool)
    (hct : ct = contentTypeJSON ∨ ct = contentTypeYAML) :
    (∀ s, roundtrips ct pretty (.intSimple emptyGVK s) (.intSimple emptyGVK "")) ∧
    (∀ s i j k b, roundtrips ct pretty (.intComplex emptyGVK s i j k b)
        (.intComplex emptyGVK "" 0 0 0 false)) ∧
    (∀ v s, (v = "v1alpha1" ∨ v = "v1alpha2") →
        roundtrips ct pretty (.extSimple ⟨"foogroup", v, "Simple"⟩ s)
          (.extSimple emptyGVK "")) ∧
    (∀ v s i j k b, (v = "v1alpha1" ∨ v = "v1alpha2") →
        roundtrips ct pretty (.extComplex ⟨"foogroup", v, "Complex"⟩ s i j k b)
          (.extComplex emptyGVK "" 0 0 0 false)) := by
  refine ⟨fun s => ?_, fun s i j k b => ?_, fun v s hv => ?_, fun v s i j k b hv => ?_⟩
  · rcases hct with h | h <;> subst h <;>
      exact roundtrips_intro _ pretty _ _
        ⟨⟨"foogroup", "v1alpha1"⟩, _, pretty,
          .extSimple ⟨"foogroup", "v1alpha1", "Simple"⟩ s⟩ rfl rfl
  · rcases hct with h | h <;> subst h <;>
      exact roundtrips_intro _ pretty _ _
        ⟨⟨"foogroup", "v1alpha1"⟩, _, pretty,
          .extComplex ⟨"foogroup", "v1alpha1", "Complex"⟩ s i j k b⟩ rfl rfl
  · rcases hct with h | h <;> rcases hv with h' | h' <;> subst h <;> subst h' <;>
      exact roundtrips_intro _ pretty _ _
        ⟨⟨"foogroup", _⟩, _, pretty, .extSimple ⟨"foogroup", _, "Simple"⟩ s⟩ rfl rfl
  · rcases hct with h | h <;> rcases hv with h' | h' <;> subst h <;> subst h' <;>
      exact roundtrips_intro _ pretty _ _
        ⟨⟨"foogroup", _⟩, _, pretty,
          .extComplex ⟨"foogroup", _, "Complex"⟩ s i j k b⟩ rfl rfl

/-- C1 witness: the canonical scenario — the internal `Simple` object
with `testString = "foo"`, pretty YAML — round-trips. -/
theorem roundtrip_fixture_witness :
    roundtrips contentTypeYAML true (.intSimple emptyGVK "foo")
      (.intSimple emptyGVK "") :=
  (roundtrip_fixture contentTypeYAML true (Or.inr rfl)).1 "foo"

/-! ## A CRD-style fixture: one Convertible, two Hub-capable versions -/

/-- A controller-runtime-style kind `Widget` in group `hubgroup`:
`spoke` (registered at `v1`) implements `conversion.Convertible`, while
`hubA` (at `v2`) and `hubB` (at `v3`) both implement `conversion.Hub`. -/
inductive CObj where
  | spoke (tm : GVK)
  | hubA (tm : GVK)
  | hubB (tm : GVK)
deriving DecidableEq, Repr

/-- `hubgroup/v1/Widget`, the Convertible's version. -/
def spokeGVK : GVK := ⟨"hubgroup", "v1", "Widget"⟩

/-- `hubgroup/v2/Widget`, the first Hub-capable version. -/
def hubAGVK : GVK := ⟨"hubgroup", "v2", "Widget"⟩

/-- `hubgroup/v3/Widget`, the second Hub-capable version. -/
def hubBGVK : GVK := ⟨"hubgroup", "v3", "Widget"⟩

/-- The CRD fixture's TypeMeta accessor. -/
def CObj.tm : CObj → GVK
  | .spoke tm => tm
  | .hubA tm => tm
  | .hubB tm => tm

/-- The scheme with the CRD fixture registered: `Widget` has one
Convertible version and two Hub-capable versions, and the user
conversions succeed (returning the destination object). -/
def cScheme : Scheme CObj where
  getGVK := CObj.tm
  setGVK o tm :=
    match o with
    | .spoke _ => .spoke tm
    | .hubA _ => .hubA tm
    | .hubB _ => .hubB tm
  objectKinds o :=
    match o with
    | .spoke _ => .ok ([spokeGVK], false)
    | .hubA _ => .ok ([hubAGVK], false)
    | .hubB _ => .ok ([hubBGVK], false)
  prioritizedVersionsForGroup _ := []
  newForGVK gvk :=
    if gvk = spokeGVK then .ok (.spoke emptyGVK)
    else if gvk = hubAGVK then .ok (.hubA emptyGVK)
    else if gvk = hubBGVK then .ok (.hubB emptyGVK)
    else .error "kind not registered"
  schemeConvert _ _ := .error "no generic conversion registered"
  schemeDefault o := o
  convertToInternal o := .ok o
  isConvertible o := match o with | .spoke _ => true | _ => false
  isHub o := match o with | .spoke _ => false | _ => true
  userConvertTo _ out := .ok out
  userConvertFrom _ out := .ok out
  allKnownTypes := [spokeGVK, hubAGVK, hubBGVK]

/-- C4: the dispatch of `convertor.Convert(in, out)` — a Convertible
`in` with a non-Hub `out` fails with a `CRDConversionError` of cause
`InvalidArgs`; a Convertible `in` with a Hub `out` goes through the
type's own `ConvertTo`, whose failure is reported with cause
`ConvertTo`; a Hub `in` with a Convertible `out` (the `in`-Convertible
branch not having fired first) goes through `ConvertFrom`, whose failure
is reported with cause `ConvertFrom`; with neither side Convertible, the
generic registry conversion path is used. -/
theorem convert_dispatch_spec {α : Type} (s : Scheme α) (inp out : α) :
    (s.isConvertible inp = true → s.isHub out = false →
        Convert s inp out =
          .error (.crd none .invalidArgs
            (some "if in object is Convertible, out must be Hub"))) ∧
    (∀ gvk m, s.isConvertible inp = true → s.isHub out = true →
        validateConvertible s inp = .ok gvk →
        s.userConvertTo inp out = .error m →
        Convert s inp out = .error (.crd (some gvk) .convertTo (some m))) ∧
    (∀ gvk m, s.isConvertible inp = false → s.isConvertible out = true →
        s.isHub inp = true →
        validateConvertible s out = .ok gvk →
        s.userConvertFrom inp out = .error m →
        Convert s inp out = .error (.crd (some gvk) .convertFrom (some m))) ∧
    (s.isConvertible inp = false → s.isConvertible out = false →
        Convert s inp out =
          match s.schemeConvert inp out with
          | .error m => .error (.other m)
          | .ok out' => .ok out') := by
  refine ⟨fun hc hh => ?_, fun gvk m hc hh hv hu => ?_,
    fun gvk m hc hc' hh hv hu => ?_, fun hc hc' => ?_⟩
  · simp [Convert, hc, hh]
  · simp [Convert, hc, hh, convertIntoHub, hv, hu]
  · simp [Convert, hc, hc', hh, convertFromHub, hv, hu]
  · simp [Convert, hc, hc']

/-- C4 witness: a Convertible `in` (the spoke) paired with a non-Hub
`out` (another spoke) fails with cause `InvalidArgs`. -/
theorem convert_dispatch_spec_witness :
    Convert cScheme (.spoke spokeGVK) (.spoke emptyGVK) =
      .error (.crd none .invalidArgs
        (some "if in object is Convertible, out must be Hub")) :=
  (convert_dispatch_spec cScheme (.spoke spokeGVK) (.spoke emptyGVK)).1 rfl rfl

/-- C5: with two or more Hub-capable versions registered for the same
kind, `convertToHub` on an object of that kind fails with a setup error:
the hub-uniqueness validation (`webhookconversion.IsConvertible`, run by
`validateConvertible` before `findHubType` ever scans) rejects the kind
with a partial-implementation error, which `convertToHub` surfaces as a
`CRDConversionError` of cause `SchemeSetup`.  No candidate Hub is ever
silently selected — the conclusion is one fixed error, whatever the
registry's iteration order (the hypotheses' hub count is
order-invariant). -/
theorem convertToHub_two_hubs_fails {α : Type} (s : Scheme α) (inp : α)
    (gvk gvk0 : GVK) (rest : List GVK) (u : Bool) (objs : List α)
    (hg : gvkForObject s inp = .ok gvk)
    (hk : s.objectKinds inp = .ok (gvk0 :: rest, u))
    (hinst : instantiateVersions s (s.allKnownTypes.filter
        (fun g => g.group == gvk0.group && g.kind == gvk0.kind)) = .ok objs)
    (hhubs : 2 ≤ (objs.filter s.isHub).length) :
    convertToHub s inp =
      .error (.crd (some gvk) .schemeSetup
        (some "PartialImplementationError")) := by
  have hne0 : (objs.filter s.isHub).length ≠ 0 := by omega
  have hne1 : (objs.filter s.isHub).length ≠ 1 := by omega
  have hwc : webhookIsConvertible s inp =
      (false, some "PartialImplementationError") := by
    simp [webhookIsConvertible, hk, hinst, hne0, hne1]
  simp [convertToHub, validateConvertible, hg, hwc]

/-- C5 witness: in the CRD fixture, whose `Widget` kind has Hub-capable
versions at both `v2` and `v3`, `convertToHub` on the Convertible spoke
fails with the `SchemeSetup`-tagged error. -/
theorem convertToHub_two_hubs_fails_witness :
    convertToHub cScheme (.spoke spokeGVK) =
      .error (.crd (some spokeGVK) .schemeSetup
        (some "PartialImplementationError")) :=
  convertToHub_two_hubs_fails cScheme (.spoke spokeGVK) spokeGVK spokeGVK
    [] false [.spoke emptyGVK, .hubA emptyGVK, .hubB emptyGVK]
    rfl rfl rfl (by decide)

end LibGitOps
